import Mathlib

/-!
Shallow embedding of `src/bentoml/onnx.py` (the BentoML ONNX adapter) and
verification of its specification claims.

The active Python module defines:
  - constants `SUPPORTED_ONNX_BACKEND`, `ONNX_EXT`;
  - helpers `_yield_first_val`, `flatten_list`;
  - `_get_model_info`, `load`, `save`;
  - class `_ONNXRunner` with `__init__`, `num_concurrency_per_replica`,
    `num_replica`, `_setup`.

Python values that can flow through the provider-spec machinery are embedded
as the inductive `PyObj`; Python exceptions become the inductive `PyErr` and
fallible code returns `Except PyErr _`.  External collaborators (the model
store, `onnxruntime.get_all_providers`, `onnxruntime.get_available_providers`)
are passed in as explicit parameters.
-/

namespace BentoOnnx

/-- Value of the Python module attribute `__name__` for `bentoml/onnx.py`. -/
def MODULE_NAME : String := "bentoml.onnx"

/-- Source constant: `SUPPORTED_ONNX_BACKEND: t.List[str] = ["onnxruntime", "onnxruntime-gpu"]`. -/
def SUPPORTED_ONNX_BACKEND : List String := ["onnxruntime", "onnxruntime-gpu"]

/-- Source constant: `ONNX_EXT: str = ".onnx"`. -/
def ONNX_EXT : String := ".onnx"

/-- Modelled from the spec: `SAVE_NAMESPACE` is imported from
`bentoml._internal.models`, which is not under `src/`; the spec only fixes that
it is "a fixed save-namespace" string used to build the canonical artifact
filename `<fixed-save-namespace>.onnx`.  The concrete value is irrelevant to
every claim. -/
def SAVE_NAMESPACE : String := "saved_model"

/-- Does the string begin with the separator `/`?  (Python
`b.startswith(sep)`, computed on the character list so that it reduces.) -/
def sepAtStart (b : String) : Bool :=
  match b.data with
  | c :: _ => c = '/'
  | [] => false

/-- Does the string end with the separator `/`?  (Python `a.endswith(sep)`.) -/
def sepAtEnd (a : String) : Bool :=
  match a.data.getLast? with
  | some c => c = '/'
  | Option.none => false

/-- Embedding of `os.path.join(a, b)` (POSIX, two arguments): an absolute `b`
replaces `a`; otherwise `b` is appended, inserting a separator unless `a` is
empty or already ends with one. -/
def os_path_join (a b : String) : String :=
  if sepAtStart b then b
  else if a = "" ∨ sepAtEnd a then a ++ b
  else a ++ "/" ++ b

/-- Embedding of the Python values that can appear in a provider-spec list:
strings, tuples, lists, dicts (iterated by their string keys, as Python does),
integers and `None`. -/
inductive PyObj where
  | str (s : String)
  | tuple (elems : List PyObj)
  | list (elems : List PyObj)
  | dict (keys : List String)
  | int (n : Int)
  | none

/-- Embedding of the exceptions the module can raise.  The three
`BentoMLException` sites keep their payloads (the offending backend, the
offending provider list verbatim, the mismatching module name) instead of the
formatted message text. -/
inductive PyErr where
  | typeError
  | indexError
  | attributeError
  | fileNotFound (p : String)
  | unsupportedBackend (backend : Option String)
  | unrecognizedProviders (providers : PyObj)
  | registryMismatch (tag : String) (module : String)

/-- Does `PyErr` come from the unsupported-backend `raise` site? -/
def PyErr.is_unsupported_backend : PyErr → Bool
  | .unsupportedBackend _ => true
  | _ => false

/-- Python truthiness for the embedded values (`if providers:`). -/
def pyTruthy : PyObj → Bool
  | .str s => s ≠ ""
  | .tuple es => !es.isEmpty
  | .list es => !es.isEmpty
  | .dict ks => !ks.isEmpty
  | .int n => n ≠ 0
  | .none => false

/-- Python membership `x in xs` where `xs` is a list of strings: a non-string
value is never equal to a string. -/
def pyMemStr (x : PyObj) (xs : List String) : Bool :=
  match x with
  | .str s => xs.contains s
  | _ => false

/-- Embedding of the helper `_yield_first_val(iterable)` (the generator's full
output): a tuple yields its first component (`IndexError` on an empty tuple), a
string yields itself, any other iterable yields its elements one level deep
(dicts yield their keys), and a non-iterable raises `TypeError`. -/
def yield_first_val : PyObj → Except PyErr (List PyObj)
  | .tuple [] => .error .indexError
  | .tuple (x :: _) => .ok [x]
  | .str s => .ok [.str s]
  | .list es => .ok es
  | .dict ks => .ok (ks.map PyObj.str)
  | .int _ => .error .typeError
  | .none => .error .typeError

/-- The comprehension `[k for i in lst for k in _yield_first_val(i)]`:
concatenates the yields of `_yield_first_val` over the elements in order; the
first element that raises aborts the whole comprehension with that error. -/
def flatten_walk : List PyObj → Except PyErr (List PyObj)
  | [] => .ok []
  | i :: rest => do
      let ks ← yield_first_val i
      let tail ← flatten_walk rest
      pure (ks ++ tail)

/-- Embedding of `flatten_list(lst)`: `AttributeError` when the argument is not
a list, otherwise the comprehension over its elements. -/
def flatten_list : PyObj → Except PyErr (List PyObj)
  | .list es => flatten_walk es
  | _ => .error .attributeError

example : flatten_list (.list [.str "a", .tuple [.str "b", .dict ["x"]]]) =
    .ok [.str "a", .str "b"] := rfl

/-- Embedding of the `ModelInfo` record handed back by `model_store.get(tag)`:
the fields the module reads are `tag`, `path` (the registry-assigned storage
directory) and `module` (the module the record was saved with). -/
structure ModelInfo where
  tag : String
  path : String
  module : String
  deriving DecidableEq, Repr

/-- A model store maps tags to their stored records (`model_store.get`). -/
abbrev ModelStore := String → ModelInfo

/-- Embedding of an in-memory `onnx.ModelProto`; `serialized` is the byte
string its `SerializeToString()` returns. -/
structure ModelProto where
  serialized : String
  deriving DecidableEq, Repr

/-- The Python value bound to `model_file`: either an in-memory model or a
string path.  The `isinstance(model_file, onnx.ModelProto)` branches in `load`
and `_setup` test which side of this union they hold. -/
inductive ModelFileVal where
  | proto (m : ModelProto)
  | path (p : String)
  deriving DecidableEq, Repr

/-- Opaque `onnxruntime.SessionOptions` bag, passed through unchanged. -/
abbrev SessOpts := Option String

/-- What an `onnxruntime.InferenceSession` was constructed from: serialized
bytes or a filesystem path. -/
inductive SessionSource where
  | fromBytes (data : String)
  | fromPath (p : String)
  deriving DecidableEq, Repr

/-- Embedding of a constructed `onnxruntime.InferenceSession`: the source
argument plus the `sess_options` and `providers` keyword arguments. -/
structure InferenceSession where
  source : SessionSource
  sess_options : SessOpts
  providers : PyObj

/-- Embedding of `_get_model_info(tag, model_store)`: fetches the record,
raises `BentoMLException` when its `module` is not this adapter's `__name__`,
and otherwise pairs it with
`os.path.join(model_info.path, f"{SAVE_NAMESPACE}{ONNX_EXT}")`. -/
def _get_model_info (tag : String) (model_store : ModelStore) :
    Except PyErr (ModelInfo × ModelFileVal) :=
  let model_info := model_store tag
  if model_info.module ≠ MODULE_NAME then
    .error (.registryMismatch tag model_info.module)
  else
    .ok (model_info, .path (os_path_join model_info.path (SAVE_NAMESPACE ++ ONNX_EXT)))

/-- The duplicated backend check `backend not in SUPPORTED_ONNX_BACKEND` from
`load` and `_ONNXRunner.__init__` (Python `None in [...]` is `False`). -/
def backend_in_supported : Option String → Bool
  | some b => SUPPORTED_ONNX_BACKEND.contains b
  | Option.none => false

/-- The duplicated provider block from `load` and `_ONNXRunner.__init__`: when
`providers` is truthy, every element of `flatten_list(providers)` must be `in
onnxruntime.get_all_providers()` or a `BentoMLException` quoting `providers`
verbatim is raised, and the original `providers` value is kept; when falsy,
`providers` is replaced by `onnxruntime.get_available_providers()`. -/
def resolve_providers (all_providers available_providers : List String)
    (providers : PyObj) : Except PyErr PyObj :=
  if pyTruthy providers then do
    let flat ← flatten_list providers
    if flat.all (fun i => pyMemStr i all_providers) then
      pure providers
    else
      .error (.unrecognizedProviders providers)
  else
    pure (.list (available_providers.map PyObj.str))

/-- The shared session-construction tail of `load` and `_ONNXRunner._setup`:
an `onnx.ModelProto` is serialized to bytes, while **a path has
`f"{SAVE_NAMESPACE}{ONNX_EXT}"` joined onto it a second time**
(`_get_path = os.path.join(model_file, f"{SAVE_NAMESPACE}{ONNX_EXT}")`), on top
of the join `_get_model_info` already performed. -/
def build_session (model_file : ModelFileVal) (sess_opts : SessOpts)
    (providers : PyObj) : InferenceSession :=
  match model_file with
  | .proto m =>
      { source := .fromBytes m.serialized, sess_options := sess_opts,
        providers := providers }
  | .path p =>
      { source := .fromPath (os_path_join p (SAVE_NAMESPACE ++ ONNX_EXT)),
        sess_options := sess_opts, providers := providers }

/-- Embedding of `load(tag, backend, providers, sess_opts, model_store)`: the
registry lookup, the backend check, the provider block, then the
`InferenceSession` construction, in source order.  The runtime capability sets
`get_all_providers()` / `get_available_providers()` are explicit parameters. -/
def load (tag : String) (backend : Option String) (providers : PyObj)
    (sess_opts : SessOpts) (model_store : ModelStore)
    (all_providers available_providers : List String) :
    Except PyErr InferenceSession := do
  let (_, model_file) ← _get_model_info tag model_store
  if backend_in_supported backend then do
    let provs ← resolve_providers all_providers available_providers providers
    pure (build_session model_file sess_opts provs)
  else
    .error (.unsupportedBackend backend)

/-- A tiny filesystem: a path-to-contents association list, newest write
first. -/
abbrev FS := List (String × String)

/-- Write `contents` at `p` (later reads of `p` see this write). -/
def fsWrite (fs : FS) (p contents : String) : FS := (p, contents) :: fs

/-- Read the contents at `p`, if any file is there. -/
def fsRead (fs : FS) (p : String) : Option String :=
  (fs.find? (fun e => e.1 = p)).map (fun e => e.2)

/-- The `model` argument of `save`: an in-memory `onnx.ModelProto` or a source
file path to copy (`shutil.copyfile`). -/
inductive SaveArg where
  | proto (m : ModelProto)
  | path (p : String)

/-- The scoped context `model_store.register(...)` yields: a registry-assigned
storage directory `path` and the new record's `tag`. -/
structure RegisterCtx where
  path : String
  tag : String
  deriving DecidableEq, Repr

/-- Embedding of the body of `save(name, model, ...)` inside the register
context: an in-memory model is serialized to
`os.path.join(ctx.path, f"{SAVE_NAMESPACE}{ONNX_EXT}")`, a file path has its
bytes copied there (`FileNotFoundError` when absent); `ctx.tag` is returned. -/
def save (model : SaveArg) (ctx : RegisterCtx) (fs : FS) :
    Except PyErr (FS × String) :=
  match model with
  | .proto m =>
      .ok (fsWrite fs (os_path_join ctx.path (SAVE_NAMESPACE ++ ONNX_EXT))
             m.serialized, ctx.tag)
  | .path src =>
      match fsRead fs src with
      | some contents =>
          .ok (fsWrite fs (os_path_join ctx.path (SAVE_NAMESPACE ++ ONNX_EXT))
                 contents, ctx.tag)
      | Option.none => .error (.fileNotFound src)

/-- Modelled from the spec: `ResourceQuota` lives in `bentoml._internal.runner`,
which is not under `src/`.  Spec §3: "`ResourceQuota`: `{cpu: float ≥ 0, gpus:
sequence<GpuId>}`. Invariant: `on_gpu := len(gpus) > 0`".  `cpu` is embedded as
a rational. -/
structure ResourceQuota where
  cpu : ℚ
  gpus : List String
  deriving DecidableEq, Repr

/-- The `on_gpu` attribute the source reads: true when the GPU list is
non-empty. -/
def ResourceQuota.on_gpu (q : ResourceQuota) : Bool := q.gpus.length > 0

/-- Embedding of Python's builtin `round` with no `ndigits` (round half to
even, i.e. banker's rounding), composed with `int(...)` which is the identity
on its integer result.  The fractional part `q - q.floor`, a rational with the
same (positive) denominator as `q`, is compared against `1/2` by
cross-multiplication: `q - q.floor < 1/2` iff `2 * (q.num - q.floor * q.den) <
q.den`, which keeps the whole computation in kernel-reducible integer
arithmetic. -/
def pythonRound (q : ℚ) : Int :=
  let f := q.floor
  let twiceFracNum := 2 * (q.num - f * (q.den : Int))
  if twiceFracNum < (q.den : Int) then f
  else if (q.den : Int) < twiceFracNum then f + 1
  else if f % 2 = 0 then f else f + 1

example : pythonRound (mkRat 2 5) = 0 := by decide
example : pythonRound (mkRat 4 1) = 4 := by decide
example : pythonRound (mkRat 1 2) = 0 := by decide
example : pythonRound (mkRat 3 2) = 2 := by decide
example : pythonRound (mkRat 5 2) = 2 := by decide
example : pythonRound (mkRat (-1) 2) = 0 := by decide

/-- The state an `_ONNXRunner` instance carries: the fields `__init__` assigns
(`tag` and `resource_quota` via `super().__init__`, then `_model_info`,
`_model_file`, `_backend`, `_providers`, `_sess_opts`), plus `_model`, the live
session handle `_setup` assigns (absent until activation).  A session handle
pairs a distinct allocation number with the constructed session so that handle
identity is observable; `next_handle` supplies fresh numbers. -/
structure RunnerState where
  tag : String
  resource_quota : ResourceQuota
  _model_info : ModelInfo
  _model_file : ModelFileVal
  _backend : Option String
  _providers : PyObj
  _sess_opts : SessOpts
  _model : Option (Nat × InferenceSession)
  next_handle : Nat

/-- Embedding of `_ONNXRunner.__init__`: `super().__init__` stores `tag` and
`resource_quota`, then `_get_model_info`, the backend check and the provider
block run eagerly (any failure aborts construction, so no runner state is ever
returned), and the validated values are stored; no session exists yet. -/
def _ONNXRunner_init (tag : String) (backend : Option String) (providers : PyObj)
    (sess_opts : SessOpts) (resource_quota : ResourceQuota)
    (model_store : ModelStore) (all_providers available_providers : List String) :
    Except PyErr RunnerState := do
  let (model_info, model_file) ← _get_model_info tag model_store
  if backend_in_supported backend then do
    let provs ← resolve_providers all_providers available_providers providers
    pure { tag := tag, resource_quota := resource_quota,
           _model_info := model_info, _model_file := model_file,
           _backend := backend, _providers := provs, _sess_opts := sess_opts,
           _model := Option.none, next_handle := 0 }
  else
    .error (.unsupportedBackend backend)

/-- Embedding of the property `_ONNXRunner.num_concurrency_per_replica`:
`1` on GPU, else `int(round(self.resource_quota.cpu))`. -/
def _ONNXRunner.num_concurrency_per_replica (st : RunnerState) : Int :=
  if st.resource_quota.on_gpu then 1
  else pythonRound st.resource_quota.cpu

/-- Embedding of the property `_ONNXRunner.num_replica`:
`len(self.resource_quota.gpus)` on GPU, else `1`. -/
def _ONNXRunner.num_replica (st : RunnerState) : Int :=
  if st.resource_quota.on_gpu then (st.resource_quota.gpus.length : Int)
  else 1

/-- Embedding of `_ONNXRunner._setup`: unconditionally constructs a fresh
`InferenceSession` from the stored `_model_file`, `_sess_opts` and
`_providers` and assigns it to `self._model`. -/
def _ONNXRunner._setup (st : RunnerState) : RunnerState :=
  { st with
    _model := some (st.next_handle,
      build_session st._model_file st._sess_opts st._providers),
    next_handle := st.next_handle + 1 }

/-- Modelled from the spec: the public activation method `setup` belongs to the
base class `bentoml._internal.runner.Runner`, which is not under `src/`.  Spec
§4.5: "Activation (`setup`) is idempotent-once: calling it after `Loaded` is a
no-op"; so `setup` invokes `_setup` only when no live session exists yet. -/
def Runner.setup (st : RunnerState) : RunnerState :=
  match st._model with
  | some _ => st
  | Option.none => _ONNXRunner._setup st

/-- A model store whose every record was saved by this adapter, with storage
directory `/models/m1`. -/
def sampleStore : ModelStore := fun t => ⟨t, "/models/m1", MODULE_NAME⟩

/-- A model store whose records were saved by a different adapter. -/
def mismatchStore : ModelStore := fun t => ⟨t, "/models/m1", "bentoml.sklearn"⟩

/-- A runner state as `__init__` would build it for the given quota, used to
evaluate the topology properties and `setup` on concrete inputs. -/
def mkRunnerState (q : ResourceQuota) : RunnerState :=
  { tag := "m:1", resource_quota := q,
    _model_info := ⟨"m:1", "/models/m1", MODULE_NAME⟩,
    _model_file := .path "/models/m1/saved_model.onnx",
    _backend := some "onnxruntime", _providers := .list [],
    _sess_opts := Option.none, _model := Option.none, next_handle := 0 }

/-- The concrete session handle `_setup` allocates first on `mkRunnerState`. -/
def sampleHandle : Nat × InferenceSession :=
  (0, build_session (.path "/models/m1/saved_model.onnx") Option.none (.list []))

/-- A runner state that has already completed its first load. -/
def loadedRunnerState : RunnerState :=
  { mkRunnerState ⟨mkRat 1 1, []⟩ with _model := some sampleHandle, next_handle := 1 }

lemma except_bind_ok {ε α β : Type} (a : α) (f : α → Except ε β) :
    (Except.ok a : Except ε α) >>= f = f a := rfl

lemma except_bind_error {ε α β : Type} (e : ε) (f : α → Except ε β) :
    (Except.error e : Except ε α) >>= f = .error e := rfl

lemma yield_first_val_err {x : PyObj} {e : PyErr}
    (h : yield_first_val x = .error e) : e = .indexError ∨ e = .typeError := by
  cases x with
  | tuple es => cases es <;> simp_all [yield_first_val]
  | str s => simp [yield_first_val] at h
  | list es => simp [yield_first_val] at h
  | dict ks => simp [yield_first_val] at h
  | int n => simp_all [yield_first_val]
  | none => simp_all [yield_first_val]

lemma flatten_walk_err {es : List PyObj} {e : PyErr}
    (h : flatten_walk es = .error e) : e = .indexError ∨ e = .typeError := by
  induction es with
  | nil => simp [flatten_walk] at h
  | cons x xs ih =>
      rw [flatten_walk] at h
      cases hx : yield_first_val x with
      | error e' =>
          rw [hx, except_bind_error] at h
          cases h
          exact yield_first_val_err hx
      | ok ks =>
          rw [hx, except_bind_ok] at h
          cases hw : flatten_walk xs with
          | error e'' =>
              rw [hw, except_bind_error] at h
              cases h
              exact ih hw
          | ok tail =>
              rw [hw, except_bind_ok] at h
              exact absurd h (by simp [pure, Except.pure])

lemma flatten_list_err {ps : PyObj} {e : PyErr}
    (h : flatten_list ps = .error e) :
    e = .attributeError ∨ e = .indexError ∨ e = .typeError := by
  cases ps with
  | list es => exact .inr (flatten_walk_err (by simpa [flatten_list] using h))
  | str s => simp_all [flatten_list]
  | tuple es => simp_all [flatten_list]
  | dict ks => simp_all [flatten_list]
  | int n => simp_all [flatten_list]
  | none => simp_all [flatten_list]

lemma resolve_providers_falsy {allP avail : List String} {ps : PyObj}
    (h : pyTruthy ps = false) :
    resolve_providers allP avail ps = .ok (.list (avail.map PyObj.str)) := by
  simp [resolve_providers, h, pure, Except.pure]

lemma resolve_providers_valid {allP avail : List String} {ps : PyObj}
    {flat : List PyObj} (ht : pyTruthy ps = true)
    (hf : flatten_list ps = .ok flat)
    (ha : flat.all (fun i => pyMemStr i allP) = true) :
    resolve_providers allP avail ps = .ok ps := by
  unfold resolve_providers
  rw [if_pos ht, hf, except_bind_ok, if_pos ha]
  rfl

lemma resolve_providers_invalid {allP avail : List String} {ps : PyObj}
    {flat : List PyObj} (ht : pyTruthy ps = true)
    (hf : flatten_list ps = .ok flat)
    (ha : flat.all (fun i => pyMemStr i allP) = false) :
    resolve_providers allP avail ps = .error (.unrecognizedProviders ps) := by
  unfold resolve_providers
  rw [if_pos ht, hf, except_bind_ok, if_neg (by simp [ha])]

lemma resolve_providers_not_unsupported {allP avail : List String} {ps : PyObj}
    {e : PyErr} (h : resolve_providers allP avail ps = .error e) :
    e.is_unsupported_backend = false := by
  unfold resolve_providers at h
  split at h
  · cases hf : flatten_list ps with
    | error e' =>
        rw [hf, except_bind_error] at h
        cases h
        rcases flatten_list_err hf with h1 | h1 | h1 <;>
          simp [h1, PyErr.is_unsupported_backend]
    | ok flat =>
        rw [hf, except_bind_ok] at h
        split at h
        · exact absurd h (by simp [pure, Except.pure])
        · cases h
          simp [PyErr.is_unsupported_backend]
  · exact absurd h (by simp [pure, Except.pure])

lemma _get_model_info_ok {tag : String} {store : ModelStore}
    (h : (store tag).module = MODULE_NAME) :
    _get_model_info tag store =
      .ok (store tag,
        .path (os_path_join (store tag).path (SAVE_NAMESPACE ++ ONNX_EXT))) := by
  simp [_get_model_info, h]

lemma _get_model_info_mismatch {tag : String} {store : ModelStore}
    (h : (store tag).module ≠ MODULE_NAME) :
    _get_model_info tag store =
      .error (.registryMismatch tag (store tag).module) := by
  simp [_get_model_info, h]

lemma load_reduce {tag : String} {backend : Option String} {ps : PyObj}
    {so : SessOpts} {store : ModelStore} {allP avail : List String}
    (hreg : (store tag).module = MODULE_NAME)
    (hb : backend_in_supported backend = true) :
    load tag backend ps so store allP avail =
      (resolve_providers allP avail ps).map (fun provs =>
        build_session
          (.path (os_path_join (store tag).path (SAVE_NAMESPACE ++ ONNX_EXT)))
          so provs) := by
  unfold load
  simp only [_get_model_info_ok hreg, except_bind_ok]
  rw [if_pos hb]
  cases hr : resolve_providers allP avail ps with
  | error e => rw [except_bind_error]; rfl
  | ok provs => rw [except_bind_ok]; rfl

lemma load_unsupported {tag : String} {backend : Option String} {ps : PyObj}
    {so : SessOpts} {store : ModelStore} {allP avail : List String}
    (hreg : (store tag).module = MODULE_NAME)
    (hb : backend_in_supported backend = false) :
    load tag backend ps so store allP avail =
      .error (.unsupportedBackend backend) := by
  unfold load
  simp only [_get_model_info_ok hreg, except_bind_ok]
  rw [if_neg (by simp [hb])]

lemma init_reduce {tag : String} {backend : Option String} {ps : PyObj}
    {so : SessOpts} {q : ResourceQuota} {store : ModelStore}
    {allP avail : List String}
    (hreg : (store tag).module = MODULE_NAME)
    (hb : backend_in_supported backend = true) :
    _ONNXRunner_init tag backend ps so q store allP avail =
      (resolve_providers allP avail ps).map (fun provs =>
        { tag := tag, resource_quota := q,
          _model_info := store tag,
          _model_file :=
            .path (os_path_join (store tag).path (SAVE_NAMESPACE ++ ONNX_EXT)),
          _backend := backend, _providers := provs, _sess_opts := so,
          _model := Option.none, next_handle := 0 }) := by
  unfold _ONNXRunner_init
  simp only [_get_model_info_ok hreg, except_bind_ok]
  rw [if_pos hb]
  cases hr : resolve_providers allP avail ps with
  | error e => rw [except_bind_error]; rfl
  | ok provs => rw [except_bind_ok]; rfl

lemma init_unsupported {tag : String} {backend : Option String} {ps : PyObj}
    {so : SessOpts} {q : ResourceQuota} {store : ModelStore}
    {allP avail : List String}
    (hreg : (store tag).module = MODULE_NAME)
    (hb : backend_in_supported backend = false) :
    _ONNXRunner_init tag backend ps so q store allP avail =
      .error (.unsupportedBackend backend) := by
  unfold _ONNXRunner_init
  simp only [_get_model_info_ok hreg, except_bind_ok]
  rw [if_neg (by simp [hb])]

lemma load_mismatch {tag : String} {backend : Option String} {ps : PyObj}
    {so : SessOpts} {store : ModelStore} {allP avail : List String}
    (hreg : (store tag).module ≠ MODULE_NAME) :
    load tag backend ps so store allP avail =
      .error (.registryMismatch tag (store tag).module) := by
  unfold load
  rw [_get_model_info_mismatch hreg, except_bind_error]

lemma init_mismatch {tag : String} {backend : Option String} {ps : PyObj}
    {so : SessOpts} {q : ResourceQuota} {store : ModelStore}
    {allP avail : List String}
    (hreg : (store tag).module ≠ MODULE_NAME) :
    _ONNXRunner_init tag backend ps so q store allP avail =
      .error (.registryMismatch tag (store tag).module) := by
  unfold _ONNXRunner_init
  rw [_get_model_info_mismatch hreg, except_bind_error]

/-- Claim C1, counterexample: for the resource quota `{cpu: 0.4, gpus: []}` the
Runner's `num_concurrency_per_replica` evaluates to `0`, not to the floor of
`1` the claim states ("cpu = 0.4 yields concurrency 1 (never 0)"). -/
theorem C1_counterexample :
    _ONNXRunner.num_concurrency_per_replica (mkRunnerState ⟨mkRat 2 5, []⟩) = 0 ∧
    _ONNXRunner.num_concurrency_per_replica (mkRunnerState ⟨mkRat 2 5, []⟩) ≠ 1 := by
  decide

/-- Claim C1 (amended): for every quota with an empty GPU list the Runner's
topology is `replicas = 1` and `concurrency_per_replica = round(quota.cpu)`
with **no** floor (`int(round(cpu))` exactly, so `cpu = 4` yields `4` but
`cpu = 0.4` yields `0`), and for every quota with a non-empty GPU list it is
`replicas = len(quota.gpus)` and `concurrency_per_replica = 1`. -/
theorem C1_topology (st : RunnerState) :
    (_ONNXRunner.num_replica st =
      if st.resource_quota.gpus.isEmpty then 1
      else (st.resource_quota.gpus.length : Int)) ∧
    (_ONNXRunner.num_concurrency_per_replica st =
      if st.resource_quota.gpus.isEmpty then pythonRound st.resource_quota.cpu
      else 1) ∧
    _ONNXRunner.num_replica (mkRunnerState ⟨mkRat 4 1, []⟩) = 1 ∧
    _ONNXRunner.num_concurrency_per_replica (mkRunnerState ⟨mkRat 4 1, []⟩) = 4 ∧
    _ONNXRunner.num_replica (mkRunnerState ⟨mkRat 1 1, ["gpu0", "gpu1"]⟩) = 2 ∧
    _ONNXRunner.num_concurrency_per_replica
      (mkRunnerState ⟨mkRat 1 1, ["gpu0", "gpu1"]⟩) = 1 := by
  refine ⟨?_, ?_, by decide, by decide, by decide, by decide⟩
  · unfold _ONNXRunner.num_replica ResourceQuota.on_gpu
    cases st.resource_quota.gpus <;> simp
  · unfold _ONNXRunner.num_concurrency_per_replica ResourceQuota.on_gpu
    cases st.resource_quota.gpus <;> simp

/-- Claim C7: flattening a provider-spec list takes the first component of a
tuple, the whole string of a plain name, and every element of a nested
sequence; flattening `[["a","b"], ("c", {opt:1}), "d"]` yields the names
`a, b, c, d`; and an element that is a scalar non-string non-sequence (an
integer, or `None`) is a malformed-input (`TypeError`) failure. -/
theorem C7_flatten :
    flatten_list (.list [.list [.str "a", .str "b"],
        .tuple [.str "c", .dict ["opt"]], .str "d"]) =
      .ok [.str "a", .str "b", .str "c", .str "d"] ∧
    (∀ (x : PyObj) (xs : List PyObj),
      yield_first_val (.tuple (x :: xs)) = .ok [x]) ∧
    (∀ s : String, yield_first_val (.str s) = .ok [.str s]) ∧
    (∀ es : List PyObj, yield_first_val (.list es) = .ok es) ∧
    (∀ (n : Int) (rest : List PyObj),
      flatten_list (.list (.int n :: rest)) = .error .typeError) ∧
    flatten_list (.list [.none]) = .error .typeError :=
  ⟨rfl, fun _ _ => rfl, fun _ => rfl, fun _ => rfl, fun _ _ => rfl, rfl⟩

/-- Claim C9 (with `setup` modelled from the spec): activating an
already-Loaded Runner is a no-op — a second `setup` after the first completed
load changes nothing: the state, the session handle and the handle allocator
are all identical, so no duplicate session is acquired. -/
theorem C9_setup_idempotent (st : RunnerState) :
    Runner.setup (Runner.setup st) = Runner.setup st ∧
    (∀ m, st._model = some m → Runner.setup st = st) ∧
    (Runner.setup (Runner.setup st))._model = (Runner.setup st)._model ∧
    (Runner.setup (Runner.setup st)).next_handle = (Runner.setup st).next_handle := by
  have h : Runner.setup (Runner.setup st) = Runner.setup st := by
    cases hm : st._model with
    | some m => simp [Runner.setup, hm]
    | none => simp [Runner.setup, _ONNXRunner._setup, hm]
  refine ⟨h, ?_, by rw [h], by rw [h]⟩
  intro m hm
  simp [Runner.setup, hm]

/-- Witness for C9: on a concrete Runner that has completed its first load,
`setup` is the identity. -/
theorem C9_setup_idempotent_witness :
    Runner.setup loadedRunnerState = loadedRunnerState :=
  (C9_setup_idempotent loadedRunnerState).2.1 sampleHandle rfl

lemma except_map_error_iff {ε α β : Type} (f : α → β) (x : Except ε α) (e : ε) :
    x.map f = .error e ↔ x = .error e := by
  cases x <;> simp [Except.map]

/-- Claim C4: for every backend name outside the fixed set
`{"onnxruntime", "onnxruntime-gpu"}` both `load` and `_ONNXRunner.__init__`
fail with the unsupported-backend error, and for every name inside the set the
check passes — neither can fail with that error. -/
theorem C4_backend_check (b tag : String) (ps : PyObj) (so : SessOpts)
    (q : ResourceQuota) (store : ModelStore) (allP avail : List String)
    (hreg : (store tag).module = MODULE_NAME) :
    (SUPPORTED_ONNX_BACKEND.contains b = false →
      load tag (some b) ps so store allP avail =
        .error (.unsupportedBackend (some b)) ∧
      _ONNXRunner_init tag (some b) ps so q store allP avail =
        .error (.unsupportedBackend (some b))) ∧
    (SUPPORTED_ONNX_BACKEND.contains b = true →
      (∀ e, load tag (some b) ps so store allP avail = .error e →
        e.is_unsupported_backend = false) ∧
      (∀ e, _ONNXRunner_init tag (some b) ps so q store allP avail = .error e →
        e.is_unsupported_backend = false)) := by
  constructor
  · intro hb
    have hb' : backend_in_supported (some b) = false := by
      simpa [backend_in_supported] using hb
    exact ⟨load_unsupported hreg hb', init_unsupported hreg hb'⟩
  · intro hb
    have hb' : backend_in_supported (some b) = true := by
      simpa [backend_in_supported] using hb
    constructor
    · intro e he
      rw [load_reduce hreg hb', except_map_error_iff] at he
      exact resolve_providers_not_unsupported he
    · intro e he
      rw [init_reduce hreg hb', except_map_error_iff] at he
      exact resolve_providers_not_unsupported he

/-- Witness for C4: the unsupported backend name `"tensorrt"` makes both
`load` and Runner construction fail with the unsupported-backend error. -/
theorem C4_backend_check_witness :
    load "m:1" (some "tensorrt") PyObj.none Option.none sampleStore [] [] =
      .error (.unsupportedBackend (some "tensorrt")) ∧
    _ONNXRunner_init "m:1" (some "tensorrt") PyObj.none Option.none
      ⟨mkRat 1 1, []⟩ sampleStore [] [] =
      .error (.unsupportedBackend (some "tensorrt")) :=
  (C4_backend_check "tensorrt" "m:1" PyObj.none Option.none ⟨mkRat 1 1, []⟩
    sampleStore [] [] rfl).1 rfl

/-- Claim C5: whenever the provider list is empty or unset (Python-falsy), the
provider list actually used for session construction — in `load` and in Runner
construction — is exactly the runtime's `get_available_providers()` result. -/
theorem C5_default_providers (tag : String) (backend : Option String)
    (ps : PyObj) (so : SessOpts) (q : ResourceQuota) (store : ModelStore)
    (allP avail : List String)
    (hps : pyTruthy ps = false)
    (hreg : (store tag).module = MODULE_NAME)
    (hb : backend_in_supported backend = true) :
    (load tag backend ps so store allP avail).map (fun s => s.providers) =
      .ok (.list (avail.map PyObj.str)) ∧
    (_ONNXRunner_init tag backend ps so q store allP avail).map
      (fun st => st._providers) = .ok (.list (avail.map PyObj.str)) := by
  rw [load_reduce hreg hb, init_reduce hreg hb, resolve_providers_falsy hps]
  exact ⟨rfl, rfl⟩

/-- Witness for C5: with unset providers, the session and the Runner both end
up with exactly the available-provider list, not the full known catalogue. -/
theorem C5_default_providers_witness :
    (load "m:1" (some "onnxruntime") PyObj.none Option.none sampleStore
      ["CPUExecutionProvider", "CUDAExecutionProvider"]
      ["CPUExecutionProvider"]).map (fun s => s.providers) =
      .ok (.list [.str "CPUExecutionProvider"]) ∧
    (_ONNXRunner_init "m:1" (some "onnxruntime") PyObj.none Option.none
      ⟨mkRat 1 1, []⟩ sampleStore ["CPUExecutionProvider", "CUDAExecutionProvider"]
      ["CPUExecutionProvider"]).map (fun st => st._providers) =
      .ok (.list [.str "CPUExecutionProvider"]) :=
  C5_default_providers "m:1" (some "onnxruntime") PyObj.none Option.none
    ⟨mkRat 1 1, []⟩ sampleStore ["CPUExecutionProvider", "CUDAExecutionProvider"]
    ["CPUExecutionProvider"] rfl rfl rfl

/-- Claim C6: for a non-empty (truthy) provider list whose flattening
succeeds, validation succeeds — the original list is passed through to the
session / Runner — exactly when every flattened name is in the runtime's full
known-provider catalogue; when some flattened name is outside it, both `load`
and Runner construction fail with the error carrying the offending input
verbatim. -/
theorem C6_provider_validation (tag : String) (backend : Option String)
    (ps : PyObj) (flat : List PyObj) (so : SessOpts) (q : ResourceQuota)
    (store : ModelStore) (allP avail : List String)
    (hps : pyTruthy ps = true)
    (hflat : flatten_list ps = .ok flat)
    (hreg : (store tag).module = MODULE_NAME)
    (hb : backend_in_supported backend = true) :
    (flat.all (fun i => pyMemStr i allP) = true →
      (load tag backend ps so store allP avail).map (fun s => s.providers) =
        .ok ps ∧
      (_ONNXRunner_init tag backend ps so q store allP avail).map
        (fun st => st._providers) = .ok ps) ∧
    (flat.all (fun i => pyMemStr i allP) = false →
      load tag backend ps so store allP avail =
        .error (.unrecognizedProviders ps) ∧
      _ONNXRunner_init tag backend ps so q store allP avail =
        .error (.unrecognizedProviders ps)) := by
  rw [load_reduce hreg hb, init_reduce hreg hb]
  constructor
  · intro ha
    rw [resolve_providers_valid hps hflat ha]
    exact ⟨rfl, rfl⟩
  · intro ha
    rw [resolve_providers_invalid hps hflat ha]
    exact ⟨rfl, rfl⟩

/-- Witness for C6: a known provider name passes validation and is handed to
the session verbatim; an unknown one fails with the error quoting the input. -/
theorem C6_provider_validation_witness :
    (load "m:1" (some "onnxruntime") (.list [.str "CPUExecutionProvider"])
      Option.none sampleStore ["CPUExecutionProvider"] []).map
      (fun s => s.providers) = .ok (.list [.str "CPUExecutionProvider"]) ∧
    load "m:1" (some "onnxruntime") (.list [.str "BogusProvider"]) Option.none
      sampleStore ["CPUExecutionProvider"] [] =
      .error (.unrecognizedProviders (.list [.str "BogusProvider"])) :=
  ⟨((C6_provider_validation "m:1" (some "onnxruntime")
      (.list [.str "CPUExecutionProvider"]) [.str "CPUExecutionProvider"]
      Option.none ⟨mkRat 1 1, []⟩ sampleStore ["CPUExecutionProvider"] []
      rfl rfl rfl rfl).1 rfl).1,
   ((C6_provider_validation "m:1" (some "onnxruntime")
      (.list [.str "BogusProvider"]) [.str "BogusProvider"]
      Option.none ⟨mkRat 1 1, []⟩ sampleStore ["CPUExecutionProvider"] []
      rfl rfl rfl rfl).2 rfl).1⟩

/-- Claim C8: a stored record whose module origin differs from this adapter's
identity makes `_get_model_info` — and with it `load` and Runner
construction — fail with the registry-mismatch error; since construction
aborts with an error, no session is created and no runner state is returned.
A record whose origin matches passes the check. -/
theorem C8_registry_check (tag : String) (backend : Option String) (ps : PyObj)
    (so : SessOpts) (q : ResourceQuota) (store : ModelStore)
    (allP avail : List String) :
    ((store tag).module ≠ MODULE_NAME →
      _get_model_info tag store =
        .error (.registryMismatch tag (store tag).module) ∧
      load tag backend ps so store allP avail =
        .error (.registryMismatch tag (store tag).module) ∧
      _ONNXRunner_init tag backend ps so q store allP avail =
        .error (.registryMismatch tag (store tag).module)) ∧
    ((store tag).module = MODULE_NAME →
      _get_model_info tag store = .ok (store tag,
        .path (os_path_join (store tag).path (SAVE_NAMESPACE ++ ONNX_EXT)))) :=
  ⟨fun h => ⟨_get_model_info_mismatch h, load_mismatch h, init_mismatch h⟩,
   fun h => _get_model_info_ok h⟩

/-- Witness for C8: a record saved by `bentoml.sklearn` is rejected by both
`load` and Runner construction with the registry-mismatch error. -/
theorem C8_registry_check_witness :
    load "m:1" (some "onnxruntime") PyObj.none Option.none mismatchStore [] [] =
      .error (.registryMismatch "m:1" "bentoml.sklearn") ∧
    _ONNXRunner_init "m:1" (some "onnxruntime") PyObj.none Option.none
      ⟨mkRat 1 1, []⟩ mismatchStore [] [] =
      .error (.registryMismatch "m:1" "bentoml.sklearn") := by
  have h := (C8_registry_check "m:1" (some "onnxruntime") PyObj.none Option.none
    ⟨mkRat 1 1, []⟩ mismatchStore [] []).1 (by decide)
  exact ⟨h.2.1, h.2.2⟩

lemma except_map_ok_rfl {ε α β : Type} (f : α → β) (a : α) :
    (Except.ok a : Except ε α).map f = .ok (f a) := rfl

lemma except_map_err_rfl {ε α β : Type} (f : α → β) (e : ε) :
    (Except.error e : Except ε α).map f = .error e := rfl

/-- Claim C2, code evaluation at the failing input: `_get_model_info` already
joins `saved_model.onnx` onto the record's storage path, and `load` / `_setup`
join it a **second** time, so the path handed to the session constructor is
`<storage_path>/saved_model.onnx/saved_model.onnx` — not the canonical
`<storage_path>/saved_model.onnx` single join the claim states. -/
theorem C2_session_path_double_join :
    (load "m:1" (some "onnxruntime") PyObj.none Option.none sampleStore [] []).map
      (fun s => s.source) =
      .ok (.fromPath "/models/m1/saved_model.onnx/saved_model.onnx") ∧
    (_ONNXRunner_init "m:1" (some "onnxruntime") PyObj.none Option.none
      ⟨mkRat 1 1, []⟩ sampleStore [] []).map
      (fun st => (_ONNXRunner._setup st)._model.map (fun h => h.2.source)) =
      .ok (some (.fromPath "/models/m1/saved_model.onnx/saved_model.onnx")) ∧
    os_path_join (sampleStore "m:1").path (SAVE_NAMESPACE ++ ONNX_EXT) =
      "/models/m1/saved_model.onnx" ∧
    ("/models/m1/saved_model.onnx/saved_model.onnx" : String) ≠
      "/models/m1/saved_model.onnx" :=
  ⟨rfl, rfl, rfl, by decide⟩

/-- Claim C3, code evaluation at the failing input: saving an in-memory model
writes the single artifact file at `/models/m1/saved_model.onnx` and returns
the tag, but loading that tag constructs the session from
`/models/m1/saved_model.onnx/saved_model.onnx`; the filesystem produced by
`save` holds nothing at that path, so the loaded session is not over the
persisted artifact and the save/load round trip is broken. -/
theorem C3_roundtrip_broken :
    save (.proto ⟨"model-bytes"⟩) ⟨"/models/m1", "m:1"⟩ [] =
      .ok ([("/models/m1/saved_model.onnx", "model-bytes")], "m:1") ∧
    (load "m:1" (some "onnxruntime") PyObj.none Option.none sampleStore [] []).map
      (fun s => s.source) =
      .ok (.fromPath "/models/m1/saved_model.onnx/saved_model.onnx") ∧
    fsRead [("/models/m1/saved_model.onnx", "model-bytes")]
      "/models/m1/saved_model.onnx/saved_model.onnx" = Option.none :=
  ⟨rfl, rfl, by decide⟩

/-- Claim C10: for every tag that passes the module-origin check, the
`model_file` value is a string path (a filesystem join), so the
`isinstance(model_file, onnx.ModelProto)` branch of `load` and of `_setup` is
never taken: every session either function constructs reads from a path, never
from bytes. -/
theorem C10_sessions_from_path (tag : String) (backend : Option String)
    (ps : PyObj) (so : SessOpts) (q : ResourceQuota) (store : ModelStore)
    (allP avail : List String)
    (hreg : (store tag).module = MODULE_NAME) :
    (∃ p, (_get_model_info tag store).map (fun r => r.2) = .ok (.path p)) ∧
    (∀ s, load tag backend ps so store allP avail = .ok s →
      ∃ p, s.source = .fromPath p) ∧
    (∀ st, _ONNXRunner_init tag backend ps so q store allP avail = .ok st →
      (∃ p, st._model_file = .path p) ∧
      ∃ p, (_ONNXRunner._setup st)._model.map (fun h => h.2.source) =
        some (.fromPath p)) := by
  refine ⟨?_, ?_, ?_⟩
  · rw [_get_model_info_ok hreg]
    exact ⟨_, rfl⟩
  · intro s hs
    by_cases hb : backend_in_supported backend = true
    · rw [load_reduce hreg hb] at hs
      cases hr : resolve_providers allP avail ps with
      | error e => rw [hr, except_map_err_rfl] at hs; simp at hs
      | ok provs =>
          rw [hr, except_map_ok_rfl] at hs
          injection hs with h
          subst h
          exact ⟨_, rfl⟩
    · rw [load_unsupported hreg (by simpa using hb)] at hs
      simp at hs
  · intro st hst
    by_cases hb : backend_in_supported backend = true
    · rw [init_reduce hreg hb] at hst
      cases hr : resolve_providers allP avail ps with
      | error e => rw [hr, except_map_err_rfl] at hst; simp at hst
      | ok provs =>
          rw [hr, except_map_ok_rfl] at hst
          injection hst with h
          subst h
          exact ⟨⟨_, rfl⟩, _, rfl⟩
    · rw [init_unsupported hreg (by simpa using hb)] at hst
      simp at hst

/-- Witness for C10 at a concrete record and a concrete successful load. -/
theorem C10_sessions_from_path_witness :
    (∃ p, (_get_model_info "m:1" sampleStore).map (fun r => r.2) =
      .ok (.path p)) ∧
    (∃ p, (build_session (.path "/models/m1/saved_model.onnx") Option.none
      (.list [])).source = .fromPath p) :=
  ⟨(C10_sessions_from_path "m:1" (some "onnxruntime") PyObj.none Option.none
      ⟨mkRat 1 1, []⟩ sampleStore [] [] rfl).1,
   (C10_sessions_from_path "m:1" (some "onnxruntime") PyObj.none Option.none
      ⟨mkRat 1 1, []⟩ sampleStore [] [] rfl).2.1
      (build_session (.path "/models/m1/saved_model.onnx") Option.none
        (.list [])) rfl⟩

end BentoOnnx
